import Mathlib

/-!
Verification development for the Writetainer-Lib create-and-verify workflow.

The definitions below are a shallow embedding of the library's core logic:

* resource records (`PortainerEnvironment`, `PortainerStack`, `PortainerContainer`)
  follow `src/portainer/interfaces.ts`;
* lookup helpers (`getStackByName`, `getStackById`, `getContainerByName`,
  `getFirstEnvironmentId`) follow `src/src/utils.ts`;
* the polling verifier (`verifyAux`, `verifyStackCreation`,
  `verifyContainerCreation`) follows `src/src/utils.ts`, with wall-clock time
  made explicit as a logical millisecond counter: each lookup invocation takes
  a latency given by an oracle, each sleep takes exactly 1000 ms;
* the creation orchestrators (`createStack`, `createContainer`) follow
  `src/portainer/factory.ts`, with the remote transport abstracted into
  oracles for the stack listing, the environment resolution, the per-attempt
  submission outcome and the per-attempt verification outcome.

Remote listings are modelled as `Option (List _)`: `none` stands for a failed
or unavailable listing fetch, which the source conflates with "no match".
JavaScript numbers for ids are modelled as `Int`.  Caller-supplied retry and
timeout parameters are JavaScript numbers that may be fractional, so they are
modelled twice: over `Option Int` (`none` standing for `undefined`;
`Math.floor` is the identity on integers) and over `Option ℚ` with an
explicit floor (the `...Rat` definitions), which captures fractional inputs
such as 0.5; the `Int` versions are proved to be the restrictions of the `ℚ`
versions to integer inputs.  The NaN/typeof guards of the source are vacuous
on these domains.
-/

structure PortainerEnvironment where
  Id : Int
  Name : String
deriving DecidableEq, Repr

structure PortainerStack where
  Id : Int
  Name : String
  EndpointId : Int
deriving DecidableEq, Repr

structure PortainerContainer where
  Id : String
  Names : List String
  Image : String
  Labels : List (String × String)
  State : String
deriving DecidableEq, Repr

/-- Character-list test: `needle` occurs at the very start of `hay`. -/
def strStartsAux : List Char → List Char → Bool
  | [], _ => true
  | _ :: _, [] => false
  | a :: as, b :: bs => a == b && strStartsAux as bs

/-- Character-list test: `needle` occurs contiguously somewhere in `hay`. -/
def strContainsAux : List Char → List Char → Bool
  | needle, [] => strStartsAux needle []
  | needle, b :: bs => strStartsAux needle (b :: bs) || strContainsAux needle bs

/-- JavaScript `hay.includes(needle)`: contiguous substring test. -/
def strContains (hay needle : String) : Bool :=
  strContainsAux needle.data hay.data

/-- Helper for `replaceFirstSlash`: drop the first occurrence of the
separator character from a character list, leaving the rest untouched. -/
def removeFirstSlashAux : List Char → List Char
  | [] => []
  | c :: cs => if c = '/' then cs else c :: removeFirstSlashAux cs

/-- JavaScript `name.replace('/', '')`: removes the FIRST occurrence of the
separator character, wherever it occurs in the string (not only a leading
one). -/
def replaceFirstSlash (s : String) : String :=
  String.mk (removeFirstSlashAux s.data)

/-- Removal of one LEADING separator character, and nothing else.  This is
the operation the specification describes for container-name matching
("equals target after stripping one leading separator"); it is kept separate
from `replaceFirstSlash` so the two can be compared. -/
def stripLeadingSlash (s : String) : String :=
  match s.data with
  | [] => s
  | c :: rest => if c = '/' then String.mk rest else s

/-- Embedding of `getFirstEnvironmentId` (src/src/utils.ts, lines 9-21):
returns the id of the first listed environment; a failed or empty listing
yields `none`. -/
def getFirstEnvironmentId (envs : Option (List PortainerEnvironment)) : Option Int :=
  match envs with
  | none => none
  | some [] => none
  | some (e :: _) => some e.Id

/-- Embedding of `getStackByName` (src/src/utils.ts, lines 81-102): rejects an
empty name, then scans the whole listing for the first stack whose name is
exactly equal; a failed listing fetch yields `none`. -/
def getStackByName (listing : Option (List PortainerStack)) (stackName : String) :
    Option PortainerStack :=
  if stackName = "" then none
  else
    match listing with
    | none => none
    | some l => l.find? (fun s => s.Name == stackName)

/-- Embedding of `getStackById` (src/src/utils.ts, lines 110-133): validates
both ids as positive numbers, then scans the whole listing for the first stack
with the given id AND the given environment id. -/
def getStackById (listing : Option (List PortainerStack)) (stackid environmentId : Int) :
    Option PortainerStack :=
  if stackid ≤ 0 then none
  else if environmentId ≤ 0 then none
  else
    match listing with
    | none => none
    | some l => l.find? (fun s => s.Id == stackid && s.EndpointId == environmentId)

/-- Per-container matching test of `getContainerByName`
(src/portainer/utils.ts, lines 29-33; identically in src/unnamed/part_009,
lines 34-38): any name entry contains the query as a substring, or equals
the query with a leading separator prepended, or equals the query after
removing the first separator occurrence. -/
def containerNameHit (containerName : String) (c : PortainerContainer) : Bool :=
  c.Names.any (fun n => strContains n containerName) ||
  c.Names.any (fun n => n == String.append ("/") containerName) ||
  c.Names.any (fun n => replaceFirstSlash n == containerName)

/-- Embedding of `getContainerByName` (src/portainer/utils.ts, lines 20-40):
first match in listing order; a failed listing fetch yields `none`. -/
def getContainerByName (containers : Option (List PortainerContainer))
    (containerName : String) : Option PortainerContainer :=
  match containers with
  | none => none
  | some l => l.find? (containerNameHit containerName)

/-- Matching predicate as the specification words it (spec.md §4.2): substring,
or exact with a prepended separator, or equal after stripping one LEADING
separator.  Used to compare the specified matching rule with the implemented
one. -/
def specNameMatches (containerName : String) (c : PortainerContainer) : Bool :=
  c.Names.any (fun n =>
    strContains n containerName ||
    n == String.append ("/") containerName ||
    stripLeadingSlash n == containerName)

/-- Embedding of `ensureEnvId` (src/src/mixins/EnvironmentMixins.ts, lines
60-78).  The client state is the cached `environmentId`; `envListing` is the
environment listing the transport would return if fetched.  Result:
(returned id, new cached state, number of environment-listing fetches
issued by this call).  A cached id is returned immediately with no fetch;
otherwise one fetch is issued through `getFirstEnvironmentId` and a found id
is cached. -/
def ensureEnvId (envListing : Option (List PortainerEnvironment))
    (environmentId : Option Int) : Option Int × Option Int × Nat :=
  match environmentId with
  | some id => (some id, some id, 0)
  | none =>
    match getFirstEnvironmentId envListing with
    | some id => (some id, some id, 1)
    | none => (none, none, 1)

/-- Timeout normalization of `verifyStackCreation` / `verifyContainerCreation`
(src/src/utils.ts, lines 147-155 and 189-197): a negative value is replaced
with the 5000 ms default, otherwise the (integer) value is kept. -/
def coerceVerifyTimeout (timeoutMs : Int) : Nat :=
  if timeoutMs < 0 then 5000 else timeoutMs.toNat

/-- Polling loop shared by `verifyStackCreation` and `verifyContainerCreation`
(src/src/utils.ts, lines 157-175 and 199-218).  Time is an explicit
millisecond counter `t` starting at 0 (the `startTime`).  `found s` tells
whether the lookup started at time `s` reports the resource; `lat s` is that
lookup's latency.  While the elapsed time is below the timeout, the loop runs
one lookup (advancing the clock by its latency), returns `true` on a hit, and
otherwise sleeps 1000 ms before re-checking the elapsed time.  A lookup that
throws is reported by the source as "not yet found", so `found s = false`
also covers the error case.  Returns the result together with the finish
time. -/
def verifyAux (found : Nat → Bool) (lat : Nat → Nat) (timeoutMs : Nat)
    (t : Nat) : Bool × Nat :=
  if h : t < timeoutMs then
    if found t then (true, t + lat t)
    else verifyAux found lat timeoutMs (t + lat t + 1000)
  else (false, t)
termination_by timeoutMs - t
decreasing_by simp_wf; omega

/-- Embedding of `verifyStackCreation` (src/src/utils.ts, lines 141-175):
an empty stack name fails immediately; otherwise the timeout is normalized
and the polling loop runs from time 0. -/
def verifyStackCreation (stackName : String) (found : Nat → Bool)
    (lat : Nat → Nat) (timeoutMs : Int) : Bool × Nat :=
  if stackName = "" then (false, 0)
  else verifyAux found lat (coerceVerifyTimeout timeoutMs) 0

/-- Embedding of `verifyContainerCreation` (src/src/utils.ts, lines 183-219):
identical loop, polling the container lookup instead of the stack lookup. -/
def verifyContainerCreation (containerName : String) (found : Nat → Bool)
    (lat : Nat → Nat) (timeoutMs : Int) : Bool × Nat :=
  if containerName = "" then (false, 0)
  else verifyAux found lat (coerceVerifyTimeout timeoutMs) 0

/-- Retry-count normalization of `createStack` (src/portainer/factory.ts,
lines 41-48) and `createContainer` (lines 123-130; the two blocks are
textually identical).  A missing or falsy (zero) value becomes the default 3;
a negative value becomes 3; any other integer is kept (`Math.floor` is the
identity on integers). -/
def coerceRetryCount (maxRetryCount : Option Int) : Int :=
  match maxRetryCount with
  | none => 3
  | some n => if n = 0 then 3 else if n < 0 then 3 else n

/-- Tells whether the retry-count normalization emits the invalid-number
warning: only the negative branch warns (the falsy branch is silent). -/
def retryCoercionWarns (maxRetryCount : Option Int) : Bool :=
  match maxRetryCount with
  | none => false
  | some n => if n = 0 then false else decide (n < 0)

/-- Timeout normalization of `createStack` (src/portainer/factory.ts, lines
50-57) and `createContainer` (lines 132-139): a missing or falsy (zero) value
becomes the default 5000; a negative value becomes 5000; any other integer is
kept. -/
def coerceTimeoutMs (timeoutMs : Option Int) : Int :=
  match timeoutMs with
  | none => 5000
  | some n => if n = 0 then 5000 else if n < 0 then 5000 else n

/-- Tells whether the timeout normalization emits the invalid-number warning:
only the negative branch warns. -/
def timeoutCoercionWarns (timeoutMs : Option Int) : Bool :=
  match timeoutMs with
  | none => false
  | some n => if n = 0 then false else decide (n < 0)

/-- Outcome of a `createStack` call (src/portainer/factory.ts, lines 35-106).
`errMissingFields` models the thrown missing name/compose error (line 63);
`errNoEnvironment` models the thrown unresolved-environment error (line 77);
`reused` is the early return of an existing stack (line 70); `created i`
is the response of the successful attempt `i` (line 98); `empty` is the
empty failure object (lines 101 and 104). -/
inductive CreateResult where
  | errMissingFields
  | errNoEnvironment
  | reused (s : PortainerStack)
  | created (attempt : Nat)
  | empty
deriving DecidableEq, Repr

/-- Attempt loop of `createStack` (src/portainer/factory.ts, lines 81-101),
wrapped in try/catch.  `fuel` is the number of attempts remaining, `i` the
current attempt index.  Each iteration issues one creation submission through
the transport; `postOk i` tells whether that submission call succeeds (a
transport error is caught by the surrounding try/catch and yields the empty
object); `verified i tmo` is the outcome of the verification poll of attempt
`i` with the normalized timeout `tmo`.  Returns the result together with the
number of creation submissions issued. -/
def attemptLoop (postOk : Nat → Bool) (verified : Nat → Int → Bool)
    (tmo : Int) : Nat → Nat → CreateResult × Nat
  | 0, _ => (CreateResult.empty, 0)
  | fuel + 1, i =>
    if postOk i then
      if verified i tmo then (CreateResult.created i, 1)
      else
        let r := attemptLoop postOk verified tmo fuel (i + 1)
        (r.1, r.2 + 1)
    else (CreateResult.empty, 1)

/-- Stack creation request, following the `stackData` record of `createStack`
(src/portainer/factory.ts): `Name` and `ComposeFile` are read as strings (the
empty string models a missing field), `Env` is the optional variable list. -/
structure StackSpec where
  Name : String
  ComposeFile : String
  Env : List (String × String)
deriving DecidableEq, Repr

/-- Embedding of `createStack` (src/portainer/factory.ts, lines 35-106).

Oracles: `listing` is the stack listing used by the idempotency lookup,
`envId` the outcome of environment resolution (`await ensureEnvId()` yields a
number or `undefined`), `postOk` and `verified` the per-attempt transport and
verification outcomes.  Returns the call result and the number of creation
submissions issued.

The guard at line 36 compares the un-awaited `ensureEnvId()` promise object
with `null`; a promise is never `null`, so that guard never throws and has no
runtime effect — it is therefore not part of the model.  Parameter
normalization (lines 41-57) precedes the required-field check (line 62), the
idempotency lookup (line 67) and the environment check (line 76), in source
order. -/
def createStack (listing : Option (List PortainerStack)) (envId : Option Int)
    (postOk : Nat → Bool) (verified : Nat → Int → Bool) (spec : StackSpec)
    (maxRetryCount timeoutMs : Option Int) : CreateResult × Nat :=
  let retry := coerceRetryCount maxRetryCount
  let tmo := coerceTimeoutMs timeoutMs
  if spec.Name = "" ∨ spec.ComposeFile = "" then (CreateResult.errMissingFields, 0)
  else
    match getStackByName listing spec.Name with
    | some s => (CreateResult.reused s, 0)
    | none =>
      match envId with
      | none => (CreateResult.errNoEnvironment, 0)
      | some _ => attemptLoop postOk verified tmo retry.toNat 0

/-- Name sanitization of `createContainer` (src/portainer/factory.ts, line
121): lowercase, then every character outside `[a-z0-9-]` replaced with a
dash. -/
def sanitizeName (s : String) : String :=
  String.mk (s.data.map (fun ch =>
    let c := ch.toLower
    if (('a' ≤ c ∧ c ≤ 'z') ∨ ('0' ≤ c ∧ c ≤ '9') ∨ c = '-') then c else '-'))

/-- Engine actions issued by `cleanupExistingContainer` against a pre-existing
container: stop it, remove it. -/
inductive CleanupAction where
  | stop (containerId : String)
  | remove (containerId : String)
deriving DecidableEq, Repr

/-- Embedding of `cleanupExistingContainer` (src/portainer/api.ts, lines
254-289), reported as the list of engine actions it issues.  The whole body is
wrapped in try/catch (a failure is logged as a warning and swallowed), so an
unresolved environment or an unavailable container listing simply yields no
actions.  A pre-existing container matching the name (substring or exact with
a prepended separator) is stopped when running, then removed. -/
def cleanupActions (envId : Option Int)
    (containers : Option (List PortainerContainer)) (containerName : String) :
    List CleanupAction :=
  match envId with
  | none => []
  | some _ =>
    match containers with
    | none => []
    | some l =>
      match l.find? (fun c =>
          c.Names.any (fun n => strContains n containerName) ||
          c.Names.any (fun n => n == String.append ("/") containerName)) with
      | none => []
      | some c =>
        (if c.State == "running" then [CleanupAction.stop c.Id] else []) ++
          [CleanupAction.remove c.Id]

/-- Outcome of a `createContainer` call (src/portainer/factory.ts, lines
118-177).  `success` is the synthesized record of lines 165-171 (with
`method: direct-container`, `containerCreated: true`, `verified: true`);
`thrown` models an uncaught transport error escaping the call (the loop has
no try/catch); `empty` is the empty failure object of line 176. -/
inductive ContainerResult where
  | success (containerId : String) (name : String)
  | thrown
  | empty
deriving DecidableEq, Repr

/-- Attempt loop of `createContainer` (src/portainer/factory.ts, lines
144-173).  Each iteration issues one creation submission; `postOk i` covers
the creation and start calls of attempt `i` (either failing throws out of the
whole call, since this loop has no try/catch); `respId i` is the container id
of the creation response; `verified i` is the verification outcome (the
verification timeout is hardcoded to 10000 at line 161).  Returns the result
and the number of creation submissions issued. -/
def containerLoop (postOk : Nat → Bool) (verified : Nat → Bool)
    (respId : Nat → String) (serviceName : String) :
    Nat → Nat → ContainerResult × Nat
  | 0, _ => (ContainerResult.empty, 0)
  | fuel + 1, i =>
    if postOk i then
      if verified i then (ContainerResult.success (respId i) serviceName, 1)
      else
        let r := containerLoop postOk verified respId serviceName fuel (i + 1)
        (r.1, r.2 + 1)
    else (ContainerResult.thrown, 1)

/-- Full outcome of a `createContainer` call: result, number of creation
submissions, number of invocations of `cleanupExistingContainer`, and the
engine actions that cleanup issued. -/
structure ContainerCallOutcome where
  result : ContainerResult
  submissions : Nat
  cleanupCalls : Nat
  cleanupDone : List CleanupAction
deriving DecidableEq, Repr

/-- Embedding of `createContainer` (src/portainer/factory.ts, lines 118-177).
The name is sanitized, parameters are normalized (lines 123-139, textually the
same blocks as in `createStack`), then `cleanupExistingContainer` is invoked
exactly once (line 142) before the attempt loop runs.  No environment
precondition is checked anywhere in this function: `envId` only feeds the
cleanup helper (and the request URL text), never the control flow of the
loop. -/
def createContainer (envId : Option Int)
    (containers : Option (List PortainerContainer)) (postOk : Nat → Bool)
    (verified : Nat → Bool) (respId : Nat → String) (name : String)
    (maxRetryCount timeoutMs : Option Int) : ContainerCallOutcome :=
  let serviceName := sanitizeName name
  let retry := coerceRetryCount maxRetryCount
  let _tmo := coerceTimeoutMs timeoutMs
  let acts := cleanupActions envId containers serviceName
  let r := containerLoop postOk verified respId serviceName retry.toNat 0
  ⟨r.1, r.2, 1, acts⟩

/-- Retry-count normalization of `createStack` and `createContainer`
(src/portainer/factory.ts, lines 41-48 and 123-130) on general JavaScript
numbers, modelled as rationals with `Math.floor` as the floor function.
JavaScript `!maxRetryCount` is true only for 0 (and missing/NaN), so a
fractional value strictly between 0 and 1 is truthy; its floor is 0, which
also passes the `Math.floor(...) < 0` check, so the value is normalized to
`Math.floor`, that is to 0.  `coerceRetryCount` is the restriction of this
function to integer inputs (`coerceRetryCountRat_intCast`). -/
def coerceRetryCountRat (maxRetryCount : Option ℚ) : Int :=
  match maxRetryCount with
  | none => 3
  | some q => if q = 0 then 3 else if ⌊q⌋ < 0 then 3 else ⌊q⌋

/-- Timeout normalization of `createStack` and `createContainer`
(src/portainer/factory.ts, lines 50-57 and 132-139) on general JavaScript
numbers, modelled as rationals; same branch structure as the retry
normalization, with default 5000. -/
def coerceTimeoutMsRat (timeoutMs : Option ℚ) : Int :=
  match timeoutMs with
  | none => 5000
  | some q => if q = 0 then 5000 else if ⌊q⌋ < 0 then 5000 else ⌊q⌋

/-- Embedding of `createStack` (src/portainer/factory.ts, lines 35-106) with
general (possibly fractional) numeric arguments: identical to `createStack`
except that the two parameter normalizations run on rationals
(`createStackRat_intCast` shows it restricts to `createStack` on integer
inputs). -/
def createStackRat (listing : Option (List PortainerStack)) (envId : Option Int)
    (postOk : Nat → Bool) (verified : Nat → Int → Bool) (spec : StackSpec)
    (maxRetryCount timeoutMs : Option ℚ) : CreateResult × Nat :=
  let retry := coerceRetryCountRat maxRetryCount
  let tmo := coerceTimeoutMsRat timeoutMs
  if spec.Name = "" ∨ spec.ComposeFile = "" then (CreateResult.errMissingFields, 0)
  else
    match getStackByName listing spec.Name with
    | some s => (CreateResult.reused s, 0)
    | none =>
      match envId with
      | none => (CreateResult.errNoEnvironment, 0)
      | some _ => attemptLoop postOk verified tmo retry.toNat 0

/-- Embedding of `createContainer` (src/portainer/factory.ts, lines 118-177)
with general (possibly fractional) numeric arguments: identical to
`createContainer` except that the two parameter normalizations run on
rationals (`createContainerRat_intCast`). -/
def createContainerRat (envId : Option Int)
    (containers : Option (List PortainerContainer)) (postOk : Nat → Bool)
    (verified : Nat → Bool) (respId : Nat → String) (name : String)
    (maxRetryCount timeoutMs : Option ℚ) : ContainerCallOutcome :=
  let serviceName := sanitizeName name
  let retry := coerceRetryCountRat maxRetryCount
  let _tmo := coerceTimeoutMsRat timeoutMs
  let acts := cleanupActions envId containers serviceName
  let r := containerLoop postOk verified respId serviceName retry.toNat 0
  ⟨r.1, r.2, 1, acts⟩

/-! Helper lemmas shared by the claim theorems. -/

theorem verifyAux_stop (found : Nat → Bool) (lat : Nat → Nat) (T t : Nat)
    (h : ¬ t < T) : verifyAux found lat T t = (false, t) := by
  rw [verifyAux]; simp [h]

theorem verifyAux_step (found : Nat → Bool) (lat : Nat → Nat) (T t : Nat)
    (h : t < T) (hf : found t = false) :
    verifyAux found lat T t = verifyAux found lat T (t + lat t + 1000) := by
  rw [verifyAux]; simp [h, hf]

theorem verifyAux_notFound (found : Nat → Bool) (lat : Nat → Nat) (L T : Nat)
    (hf : ∀ s, found s = false) (hL : ∀ s, lat s ≤ L) :
    ∀ k t, T - t ≤ k →
      (verifyAux found lat T t).1 = false ∧
      T ≤ (verifyAux found lat T t).2 ∧
      (verifyAux found lat T t).2 ≤ max t (T + L + 999) := by
  intro k
  induction k with
  | zero =>
    intro t ht
    have h : ¬ t < T := by omega
    rw [verifyAux_stop _ _ _ _ h]
    exact ⟨rfl, by omega, le_max_left _ _⟩
  | succ k ih =>
    intro t ht
    by_cases h : t < T
    · rw [verifyAux_step _ _ _ _ h (hf t)]
      have hlat := hL t
      have ih2 := ih (t + lat t + 1000) (by omega)
      refine ⟨ih2.1, ih2.2.1, ?_⟩
      have h3 : t + lat t + 1000 ≤ T + L + 999 := by omega
      calc (verifyAux found lat T (t + lat t + 1000)).2
          ≤ max (t + lat t + 1000) (T + L + 999) := ih2.2.2
        _ = T + L + 999 := max_eq_right h3
        _ ≤ max t (T + L + 999) := le_max_right _ _
    · rw [verifyAux_stop _ _ _ _ h]
      exact ⟨rfl, by omega, le_max_left _ _⟩

theorem attemptLoop_allFail (postOk : Nat → Bool) (verified : Nat → Int → Bool)
    (tmo : Int) (hpost : ∀ j, postOk j = true)
    (hv : ∀ j u, verified j u = false) :
    ∀ fuel i, attemptLoop postOk verified tmo fuel i = (CreateResult.empty, fuel) := by
  intro fuel
  induction fuel with
  | zero => intro i; rfl
  | succ n ih => intro i; simp [attemptLoop, hpost i, hv i tmo, ih (i + 1)]

theorem attemptLoop_pos (postOk : Nat → Bool) (verified : Nat → Int → Bool)
    (tmo : Int) (fuel i : Nat) (hfuel : 1 ≤ fuel) :
    1 ≤ (attemptLoop postOk verified tmo fuel i).2 := by
  cases fuel with
  | zero => omega
  | succ n =>
    rw [attemptLoop]
    by_cases hp : postOk i
    · by_cases hv : verified i tmo
      · simp [hp, hv]
      · simp [hp, hv]
    · simp [hp]

theorem containerLoop_pos (postOk : Nat → Bool) (verified : Nat → Bool)
    (respId : Nat → String) (serviceName : String) (fuel i : Nat)
    (hfuel : 1 ≤ fuel) :
    1 ≤ (containerLoop postOk verified respId serviceName fuel i).2 := by
  cases fuel with
  | zero => omega
  | succ n =>
    rw [containerLoop]
    by_cases hp : postOk i
    · by_cases hv : verified i
      · simp [hp, hv]
      · simp [hp, hv]
    · simp [hp]

theorem coerceRetryCount_toNat_pos (r : Option Int) :
    1 ≤ (coerceRetryCount r).toNat := by
  cases r with
  | none => decide
  | some n =>
    rw [coerceRetryCount]
    by_cases h0 : n = 0
    · simp [h0]
    · by_cases hneg : n < 0
      · simp [h0, hneg]
      · simp [h0, hneg]; omega

/-- C1: for every stack specification whose name matches no existing stack,
if every verification poll reports the stack as not found, then
`createStack(spec, maxRetry := 2, timeoutMs := 100)` issues exactly 2 creation
submissions to the transport and then returns the empty failure result
without throwing an exception. -/
theorem c1_retry_exhaustion (listing : Option (List PortainerStack)) (e : Int)
    (postOk : Nat → Bool) (verified : Nat → Int → Bool) (spec : StackSpec)
    (hn : spec.Name ≠ "") (hc : spec.ComposeFile ≠ "")
    (hmiss : getStackByName listing spec.Name = none)
    (hpost : ∀ i, postOk i = true)
    (hv : ∀ i u, verified i u = false) :
    createStack listing (some e) postOk verified spec (some 2) (some 100) =
      (CreateResult.empty, 2) := by
  rw [createStack]
  simp only [hmiss]
  rw [if_neg (by simp [hn, hc])]
  rw [attemptLoop_allFail postOk verified _ hpost hv]
  decide

theorem c1_retry_exhaustion_witness :
    createStack (some []) (some 1) (fun _ => true) (fun _ _ => false)
      ⟨("web"), ("compose"), []⟩ (some 2) (some 100) = (CreateResult.empty, 2) :=
  c1_retry_exhaustion (some []) 1 _ _ _ (by decide) (by decide) (by decide)
    (fun _ => rfl) (fun _ _ => rfl)

/-- C3: whenever the by-name lookup finds an existing stack of the requested
name, `createStack` returns that stack immediately and submits no creation
request; in particular a second `createStack` call with the name of a stack
created earlier yields that stack's identity with zero additional creation
calls. -/
theorem c3_idempotent_reuse (listing : Option (List PortainerStack))
    (envId : Option Int) (postOk : Nat → Bool) (verified : Nat → Int → Bool)
    (spec : StackSpec) (r t : Option Int) (s : PortainerStack)
    (hc : spec.ComposeFile ≠ "")
    (hfound : getStackByName listing spec.Name = some s) :
    createStack listing envId postOk verified spec r t =
      (CreateResult.reused s, 0) := by
  have hn : spec.Name ≠ "" := by
    intro h
    rw [getStackByName.eq_def, if_pos h] at hfound
    cases hfound
  rw [createStack.eq_def]
  simp only [hfound]
  rw [if_neg (by simp [hn, hc])]

theorem c3_idempotent_reuse_witness :
    createStack (some [⟨1, ("web"), 1⟩]) (some 1) (fun _ => true)
      (fun _ _ => true) ⟨("web"), ("compose"), []⟩ none none =
      (CreateResult.reused ⟨1, ("web"), 1⟩, 0) :=
  c3_idempotent_reuse _ _ _ _ _ _ _ _ (by decide) (by decide)

/-- C2 counterexample: a lookup of constant latency 500 ms that always
reports not-found makes `verifyStackCreation` with timeout 2000 finish at
3000 ms elapsed, which exceeds the timeout plus one lookup's worst-case
latency (2500 ms).  The claimed wall-clock bound therefore fails: the final
fixed 1000 ms sleep runs after the last lookup and before the loop re-checks
the elapsed time. -/
theorem c2_timeout_bound_counterexample :
    verifyStackCreation ("web") (fun _ => false) (fun _ => 500) 2000 =
      (false, 3000) ∧
    ¬ ((verifyStackCreation ("web") (fun _ => false) (fun _ => 500) 2000).2 ≤
        2000 + 500) := by
  have h : verifyStackCreation ("web") (fun _ => false) (fun _ => 500) 2000 =
      (false, 3000) := by
    rw [verifyStackCreation]
    rw [if_neg (by decide)]
    have hT : coerceVerifyTimeout 2000 = 2000 := by decide
    rw [hT]
    rw [verifyAux_step _ _ _ _ (by norm_num) rfl]
    rw [verifyAux_step _ _ _ _ (by norm_num) rfl]
    rw [verifyAux_stop _ _ _ _ (by norm_num)]
  exact ⟨h, by rw [h]; norm_num⟩

/-- C2 amended: for every timeout `T` and every lookup that always reports
not-found, the verification pollers return `false` at or after `T`
milliseconds elapsed, never before; the total wall-clock time is bounded by
`T` plus one lookup's worst-case latency PLUS one fixed 1000 ms sleep
interval (strictly below `T + L + 1000`), because a failed final lookup is
always followed by a full sleep before the timeout is re-checked.  Both
pollers run the identical loop. -/
theorem c2_timeout_bound_amended (stackName containerName : String)
    (found : Nat → Bool) (lat : Nat → Nat) (L T : Nat)
    (hs : stackName ≠ "") (hcn : containerName ≠ "")
    (hf : ∀ s, found s = false) (hL : ∀ s, lat s ≤ L) :
    (verifyStackCreation stackName found lat (T : Int)).1 = false ∧
    T ≤ (verifyStackCreation stackName found lat (T : Int)).2 ∧
    (verifyStackCreation stackName found lat (T : Int)).2 < T + L + 1000 ∧
    verifyContainerCreation containerName found lat (T : Int) =
      verifyStackCreation stackName found lat (T : Int) := by
  have hT : coerceVerifyTimeout (T : Int) = T := by
    simp [coerceVerifyTimeout]
  have hmain := verifyAux_notFound found lat L T hf hL T 0 (by omega)
  have hvs : verifyStackCreation stackName found lat (T : Int) =
      verifyAux found lat T 0 := by
    rw [verifyStackCreation, if_neg hs, hT]
  have hvc : verifyContainerCreation containerName found lat (T : Int) =
      verifyAux found lat T 0 := by
    rw [verifyContainerCreation, if_neg hcn, hT]
  rw [hvs, hvc]
  refine ⟨hmain.1, hmain.2.1, ?_, rfl⟩
  have h3 := hmain.2.2
  rw [max_eq_right (Nat.zero_le _)] at h3
  omega

theorem c2_timeout_bound_amended_witness :
    (verifyStackCreation ("web") (fun _ => false) (fun _ => 500)
        ((2000 : Nat) : Int)).1 = false ∧
    2000 ≤ (verifyStackCreation ("web") (fun _ => false) (fun _ => 500)
        ((2000 : Nat) : Int)).2 ∧
    (verifyStackCreation ("web") (fun _ => false) (fun _ => 500)
        ((2000 : Nat) : Int)).2 < 2000 + 500 + 1000 ∧
    verifyContainerCreation ("app") (fun _ => false) (fun _ => 500)
        ((2000 : Nat) : Int) =
      verifyStackCreation ("web") (fun _ => false) (fun _ => 500)
        ((2000 : Nat) : Int) :=
  c2_timeout_bound_amended ("web") ("app") _ _ 500 2000 (by decide) (by decide)
    (fun _ => rfl) (fun _ => le_refl 500)

/-- C4: after one successful environment resolution, a subsequent
`ensureEnvId` call returns the cached environment id and issues no further
environment-listing fetch, whatever the transport would now return; when the
session started with no cached id, the successful first call issued exactly
one listing fetch. -/
theorem c4_environment_caching (envs1 envs2 : Option (List PortainerEnvironment))
    (st : Option Int) (id : Int)
    (h : (ensureEnvId envs1 st).1 = some id) :
    ensureEnvId envs2 (ensureEnvId envs1 st).2.1 = (some id, some id, 0) ∧
    (ensureEnvId envs2 (ensureEnvId envs1 st).2.1).2.2 = 0 ∧
    (st = none → (ensureEnvId envs1 st).2.2 = 1) := by
  cases st with
  | some j =>
    simp [ensureEnvId] at h ⊢
    simp [h]
  | none =>
    cases hfe : getFirstEnvironmentId envs1 with
    | none => simp [ensureEnvId, hfe] at h
    | some j =>
      simp [ensureEnvId, hfe] at h ⊢
      simp [h]

theorem c4_environment_caching_witness :
    ensureEnvId (some []) (ensureEnvId (some [⟨7, ("local")⟩]) none).2.1 =
      (some 7, some 7, 0) ∧
    (ensureEnvId (some []) (ensureEnvId (some [⟨7, ("local")⟩]) none).2.1).2.2 = 0 ∧
    (none = (none : Option Int) → (ensureEnvId (some [⟨7, ("local")⟩]) none).2.2 = 1) :=
  c4_environment_caching (some [⟨7, ("local")⟩]) (some []) none 7 (by decide)

/-- C5 counterexample: with the environment id unresolved, `createContainer`
still issues creation submissions — here 2 of them with `maxRetryCount := 2`
and failing verification — instead of failing before any submission.
`createContainer` contains no environment-resolution precondition check; the
un-awaited `ensureEnvId()` value is only interpolated into the request URL
text. -/
theorem c5_environment_precondition_counterexample :
    ¬ ((createContainer none (some []) (fun _ => true) (fun _ => false)
        (fun _ => ("cid")) ("app") (some 2) (some 100)).submissions = 0) ∧
    (createContainer none (some []) (fun _ => true) (fun _ => false)
        (fun _ => ("cid")) ("app") (some 2) (some 100)).submissions = 2 := by
  decide

/-- C5 amended: `createStack` fails the whole call before any creation
submission when the environment id cannot be resolved (no attempt loop
iteration runs); `createContainer`, by contrast, performs no such
precondition check and always issues at least one creation submission, even
with the environment unresolved. -/
theorem c5_environment_precondition_amended
    (listing : Option (List PortainerStack)) (postOk : Nat → Bool)
    (verified : Nat → Int → Bool) (spec : StackSpec) (r t : Option Int)
    (containers : Option (List PortainerContainer)) (cpost : Nat → Bool)
    (cver : Nat → Bool) (respId : Nat → String) (cname : String)
    (rc tc : Option Int)
    (hn : spec.Name ≠ "") (hc : spec.ComposeFile ≠ "")
    (hmiss : getStackByName listing spec.Name = none) :
    createStack listing none postOk verified spec r t =
      (CreateResult.errNoEnvironment, 0) ∧
    1 ≤ (createContainer none containers cpost cver respId cname rc tc).submissions := by
  constructor
  · rw [createStack.eq_def]
    simp only [hmiss]
    rw [if_neg (by simp [hn, hc])]
  · rw [createContainer.eq_def]
    exact containerLoop_pos _ _ _ _ _ _ (coerceRetryCount_toNat_pos rc)

theorem c5_environment_precondition_amended_witness :
    createStack (some []) none (fun _ => true) (fun _ _ => true)
      ⟨("web"), ("compose"), []⟩ none none = (CreateResult.errNoEnvironment, 0) ∧
    1 ≤ (createContainer none (some []) (fun _ => true) (fun _ => true)
        (fun _ => ("cid")) ("app") none none).submissions :=
  c5_environment_precondition_amended _ _ _ _ _ _ _ _ _ _ _ _ _
    (by decide) (by decide) (by decide)

/-- C6: `createStack(spec, -5, -100)` behaves identically to
`createStack(spec, 3, 5000)` — the negative retry count and timeout are
coerced to the defaults 3 and 5000 — and both coercions emit their warning;
the call is never rejected on account of these arguments. -/
theorem c6_default_coercion (listing : Option (List PortainerStack))
    (envId : Option Int) (postOk : Nat → Bool) (verified : Nat → Int → Bool)
    (spec : StackSpec) :
    createStack listing envId postOk verified spec (some (-5)) (some (-100)) =
      createStack listing envId postOk verified spec (some 3) (some 5000) ∧
    retryCoercionWarns (some (-5)) = true ∧
    timeoutCoercionWarns (some (-100)) = true := by
  refine ⟨?_, by decide, by decide⟩
  have h1 : coerceRetryCount (some (-5)) = coerceRetryCount (some 3) := by decide
  have h2 : coerceTimeoutMs (some (-100)) = coerceTimeoutMs (some 5000) := by decide
  rw [createStack.eq_def, createStack.eq_def, h1, h2]

theorem find?_eq_some_first {α : Type} (p : α → Bool) :
    ∀ (l : List α) (a : α),
      l.find? p = some a ↔
        p a = true ∧ ∃ l1 l2, l = l1 ++ a :: l2 ∧ ∀ x ∈ l1, p x = false := by
  intro l
  induction l with
  | nil => simp
  | cons b bs ih =>
    intro a
    by_cases hb : p b = true
    · rw [List.find?_cons_of_pos _ hb]
      constructor
      · rintro h
        cases h
        exact ⟨hb, [], bs, rfl, by simp⟩
      · rintro ⟨hpa, l1, l2, heq, hall⟩
        cases l1 with
        | nil =>
          simp at heq
          rw [heq.1]
        | cons c cs =>
          simp at heq
          have := hall c (by simp)
          rw [← heq.1] at this
          rw [this] at hb
          cases hb
    · have hb2 : p b = false := by
        cases h2 : p b
        · rfl
        · exact absurd h2 hb
      rw [List.find?_cons_of_neg _ (by simp [hb2])]
      rw [ih a]
      constructor
      · rintro ⟨hpa, l1, l2, heq, hall⟩
        refine ⟨hpa, b :: l1, l2, by simp [heq], ?_⟩
        intro x hx
        cases hx with
        | head => exact hb2
        | tail _ hxs => exact hall x hxs
      · rintro ⟨hpa, l1, l2, heq, hall⟩
        cases l1 with
        | nil =>
          simp at heq
          rw [heq.1] at hb2
          rw [hb2] at hpa
          cases hpa
        | cons c cs =>
          simp at heq
          refine ⟨hpa, cs, l2, heq.2, ?_⟩
          intro x hx
          exact hall x (by simp [hx])

theorem containerNameHit_iff (q : String) (c : PortainerContainer) :
    containerNameHit q c = true ↔
      ∃ n ∈ c.Names, strContains n q = true ∨ n = String.append ("/") q ∨
        replaceFirstSlash n = q := by
  rw [containerNameHit]
  rw [Bool.or_eq_true, Bool.or_eq_true]
  rw [List.any_eq_true, List.any_eq_true, List.any_eq_true]
  constructor
  · rintro ((⟨n, hn, hp⟩ | ⟨n, hn, hp⟩) | ⟨n, hn, hp⟩)
    · exact ⟨n, hn, Or.inl hp⟩
    · exact ⟨n, hn, Or.inr (Or.inl (by simpa using hp))⟩
    · exact ⟨n, hn, Or.inr (Or.inr (by simpa using hp))⟩
  · rintro ⟨n, hn, (hp | hp | hp)⟩
    · exact Or.inl (Or.inl ⟨n, hn, hp⟩)
    · exact Or.inl (Or.inr ⟨n, hn, by simpa using hp⟩)
    · exact Or.inr ⟨n, hn, by simpa using hp⟩

/-- C7 counterexample: a container whose sole name entry is `a/b` is found by
the query `ab`, because the implementation compares the query against the
name with its FIRST separator occurrence removed (JavaScript
`replace('/', '')`), wherever that separator sits; the claimed matching rule
(substring, or exact with a prepended separator, or equal after stripping one
LEADING separator) does not match this pair, so the claimed "if and only if"
fails. -/
theorem c7_name_matching_counterexample :
    getContainerByName
        (some [⟨("c1"), [("a/b")], ("img"), [], ("running")⟩]) ("ab") =
      some ⟨("c1"), [("a/b")], ("img"), [], ("running")⟩ ∧
    specNameMatches ("ab") ⟨("c1"), [("a/b")], ("img"), [], ("running")⟩ =
      false := by
  decide

/-- C7 amended: container lookup by name matches a container if and only if
some name entry contains the query as a substring, or equals the query with a
prepended separator, or equals the query after removing the FIRST separator
occurrence anywhere in the name (not only a leading one); the lookup returns
the first match in listing order.  A container named `/my-app` is found by
the queries `my-app`, `app` and `/my-app` but not by `other`. -/
theorem c7_name_matching_amended :
    (∀ (l : List PortainerContainer) (q : String) (c : PortainerContainer),
      getContainerByName (some l) q = some c ↔
        containerNameHit q c = true ∧
        ∃ l1 l2, l = l1 ++ c :: l2 ∧ ∀ x ∈ l1, containerNameHit q x = false) ∧
    (∀ (q : String) (c : PortainerContainer),
      containerNameHit q c = true ↔
        ∃ n ∈ c.Names, strContains n q = true ∨ n = String.append ("/") q ∨
          replaceFirstSlash n = q) ∧
    getContainerByName
        (some [⟨("c0"), [("/my-app")], ("img"), [], ("running")⟩]) ("my-app") =
      some ⟨("c0"), [("/my-app")], ("img"), [], ("running")⟩ ∧
    getContainerByName
        (some [⟨("c0"), [("/my-app")], ("img"), [], ("running")⟩]) ("app") =
      some ⟨("c0"), [("/my-app")], ("img"), [], ("running")⟩ ∧
    getContainerByName
        (some [⟨("c0"), [("/my-app")], ("img"), [], ("running")⟩]) ("/my-app") =
      some ⟨("c0"), [("/my-app")], ("img"), [], ("running")⟩ ∧
    getContainerByName
        (some [⟨("c0"), [("/my-app")], ("img"), [], ("running")⟩]) ("other") =
      none := by
  refine ⟨?_, containerNameHit_iff, by decide, by decide, by decide, by decide⟩
  intro l q c
  simp only [getContainerByName]
  exact find?_eq_some_first (containerNameHit q) l c

/-- C8: `getStackById` returns a stack only when both the stack's id and its
environment id equal the arguments; when every stack carrying the requested
id belongs to a different environment, the call returns NotFound (`none`). -/
theorem c8_cross_environment_isolation (l : List PortainerStack)
    (stackid envId : Int) (s : PortainerStack) :
    (getStackById (some l) stackid envId = some s →
      s.Id = stackid ∧ s.EndpointId = envId) ∧
    ((∀ x ∈ l, x.Id = stackid → x.EndpointId ≠ envId) →
      getStackById (some l) stackid envId = none) := by
  constructor
  · intro h
    rw [getStackById.eq_def] at h
    by_cases h1 : stackid ≤ 0
    · rw [if_pos h1] at h; cases h
    · rw [if_neg h1] at h
      by_cases h2 : envId ≤ 0
      · rw [if_pos h2] at h; cases h
      · rw [if_neg h2] at h
        have hp := List.find?_some h
        simp only [Bool.and_eq_true, beq_iff_eq] at hp
        exact hp
  · intro hall
    rw [getStackById.eq_def]
    by_cases h1 : stackid ≤ 0
    · rw [if_pos h1]
    · rw [if_neg h1]
      by_cases h2 : envId ≤ 0
      · rw [if_pos h2]
      · rw [if_neg h2]
        simp only [List.find?_eq_none, Bool.and_eq_true, beq_iff_eq, not_and]
        exact hall

theorem c8_cross_environment_isolation_witness :
    getStackById (some [⟨5, ("web"), 2⟩]) 5 1 = none :=
  (c8_cross_environment_isolation [⟨5, ("web"), 2⟩] 5 1 ⟨5, ("web"), 2⟩).2
    (by decide)

/-- C9 counterexample: with `maxRetryCount := 2` and failing verification,
`createContainer` runs 2 attempt-loop iterations (2 creation submissions) but
invokes `cleanupExistingContainer` only once, before the loop — so it is not
the case that every iteration of the attempt loop begins with the cleanup. -/
theorem c9_cleanup_per_iteration_counterexample :
    (createContainer (some 1) (some []) (fun _ => true) (fun _ => false)
        (fun _ => ("cid")) ("app") (some 2) (some 100)).submissions = 2 ∧
    (createContainer (some 1) (some []) (fun _ => true) (fun _ => false)
        (fun _ => ("cid")) ("app") (some 2) (some 100)).cleanupCalls = 1 ∧
    ¬ ((createContainer (some 1) (some []) (fun _ => true) (fun _ => false)
        (fun _ => ("cid")) ("app") (some 2) (some 100)).cleanupCalls =
      (createContainer (some 1) (some []) (fun _ => true) (fun _ => false)
        (fun _ => ("cid")) ("app") (some 2) (some 100)).submissions) := by
  decide

/-- C9 amended: `createContainer` performs the best-effort cleanup exactly
once, before the attempt loop — not at the start of every iteration.  The
cleanup stops a pre-existing container sharing the sanitized name when it is
running and then removes it (only removes it when not running), and its
outcome never affects the creation attempts: the result and the number of
submissions are independent of what the cleanup found or whether it could run
at all. -/
theorem c9_cleanup_once_amended (envId : Option Int)
    (containers1 containers2 : Option (List PortainerContainer))
    (postOk : Nat → Bool) (verified : Nat → Bool) (respId : Nat → String)
    (name : String) (r t : Option Int) (e : Int)
    (l : List PortainerContainer) (c : PortainerContainer)
    (hfind : l.find? (fun x =>
        x.Names.any (fun n => strContains n (sanitizeName name)) ||
        x.Names.any (fun n => n == String.append ("/") (sanitizeName name))) =
      some c) :
    (createContainer envId containers1 postOk verified respId name r t).cleanupCalls
        = 1 ∧
    (createContainer envId containers1 postOk verified respId name r t).result =
      (createContainer envId containers2 postOk verified respId name r t).result ∧
    (createContainer envId containers1 postOk verified respId name r t).submissions =
      (createContainer envId containers2 postOk verified respId name r t).submissions ∧
    (c.State = "running" →
      (createContainer (some e) (some l) postOk verified respId name r t).cleanupDone =
        [CleanupAction.stop c.Id, CleanupAction.remove c.Id]) ∧
    (c.State ≠ "running" →
      (createContainer (some e) (some l) postOk verified respId name r t).cleanupDone =
        [CleanupAction.remove c.Id]) := by
  refine ⟨rfl, rfl, rfl, ?_, ?_⟩
  · intro hrun
    simp only [createContainer, cleanupActions, hfind]
    rw [if_pos (by simp [hrun])]
    rfl
  · intro hrun
    simp only [createContainer, cleanupActions, hfind]
    rw [if_neg (by simp [hrun])]
    rfl

theorem c9_cleanup_once_amended_witness :
    (createContainer (some 1) (some [⟨("c9"), [("/app")], ("img"), [], ("running")⟩])
        (fun _ => true) (fun _ => false) (fun _ => ("cid")) ("app")
        (some 2) (some 100)).cleanupCalls = 1 ∧
    (createContainer (some 1) (some [⟨("c9"), [("/app")], ("img"), [], ("running")⟩])
        (fun _ => true) (fun _ => false) (fun _ => ("cid")) ("app")
        (some 2) (some 100)).result =
      (createContainer (some 1) none
        (fun _ => true) (fun _ => false) (fun _ => ("cid")) ("app")
        (some 2) (some 100)).result ∧
    (createContainer (some 1) (some [⟨("c9"), [("/app")], ("img"), [], ("running")⟩])
        (fun _ => true) (fun _ => false) (fun _ => ("cid")) ("app")
        (some 2) (some 100)).submissions =
      (createContainer (some 1) none
        (fun _ => true) (fun _ => false) (fun _ => ("cid")) ("app")
        (some 2) (some 100)).submissions ∧
    (PortainerContainer.State ⟨("c9"), [("/app")], ("img"), [], ("running")⟩ =
        ("running") →
      (createContainer (some 1) (some [⟨("c9"), [("/app")], ("img"), [], ("running")⟩])
          (fun _ => true) (fun _ => false) (fun _ => ("cid")) ("app")
          (some 2) (some 100)).cleanupDone =
        [CleanupAction.stop ("c9"), CleanupAction.remove ("c9")]) ∧
    (PortainerContainer.State ⟨("c9"), [("/app")], ("img"), [], ("running")⟩ ≠
        ("running") →
      (createContainer (some 1) (some [⟨("c9"), [("/app")], ("img"), [], ("running")⟩])
          (fun _ => true) (fun _ => false) (fun _ => ("cid")) ("app")
          (some 2) (some 100)).cleanupDone =
        [CleanupAction.remove ("c9")]) :=
  c9_cleanup_once_amended (some 1)
    (some [⟨("c9"), [("/app")], ("img"), [], ("running")⟩]) none
    (fun _ => true) (fun _ => false) (fun _ => ("cid")) ("app")
    (some 2) (some 100) 1 [⟨("c9"), [("/app")], ("img"), [], ("running")⟩]
    ⟨("c9"), [("/app")], ("img"), [], ("running")⟩ (by decide)

theorem c6_default_coercion_witness :
    createStack (some []) (some 1) (fun _ => true) (fun _ _ => false)
      ⟨("web"), ("compose"), []⟩ (some (-5)) (some (-100)) =
      createStack (some []) (some 1) (fun _ => true) (fun _ _ => false)
        ⟨("web"), ("compose"), []⟩ (some 3) (some 5000) ∧
    retryCoercionWarns (some (-5)) = true ∧
    timeoutCoercionWarns (some (-100)) = true :=
  c6_default_coercion (some []) (some 1) (fun _ => true) (fun _ _ => false)
    ⟨("web"), ("compose"), []⟩

theorem c7_name_matching_amended_witness :
    getContainerByName
        (some [⟨("c0"), [("/my-app")], ("img"), [], ("running")⟩]) ("my-app") =
      some ⟨("c0"), [("/my-app")], ("img"), [], ("running")⟩ ∧
    getContainerByName
        (some [⟨("c0"), [("/my-app")], ("img"), [], ("running")⟩]) ("other") =
      none :=
  ⟨c7_name_matching_amended.2.2.1, c7_name_matching_amended.2.2.2.2.2⟩

theorem coerceRetryCountRat_intCast (r : Option Int) :
    coerceRetryCountRat (Option.map (fun n => (n : ℚ)) r) = coerceRetryCount r := by
  cases r with
  | none => rfl
  | some n =>
    simp [coerceRetryCountRat, coerceRetryCount, Int.floor_intCast, Int.cast_eq_zero]

theorem coerceTimeoutMsRat_intCast (t : Option Int) :
    coerceTimeoutMsRat (Option.map (fun n => (n : ℚ)) t) = coerceTimeoutMs t := by
  cases t with
  | none => rfl
  | some n =>
    simp [coerceTimeoutMsRat, coerceTimeoutMs, Int.floor_intCast, Int.cast_eq_zero]

theorem createStackRat_intCast (listing : Option (List PortainerStack))
    (envId : Option Int) (postOk : Nat → Bool) (verified : Nat → Int → Bool)
    (spec : StackSpec) (r t : Option Int) :
    createStackRat listing envId postOk verified spec
        (Option.map (fun n => (n : ℚ)) r) (Option.map (fun n => (n : ℚ)) t) =
      createStack listing envId postOk verified spec r t := by
  simp only [createStackRat, createStack, coerceRetryCountRat_intCast,
    coerceTimeoutMsRat_intCast]

theorem createContainerRat_intCast (envId : Option Int)
    (containers : Option (List PortainerContainer)) (postOk : Nat → Bool)
    (verified : Nat → Bool) (respId : Nat → String) (name : String)
    (r t : Option Int) :
    createContainerRat envId containers postOk verified respId name
        (Option.map (fun n => (n : ℚ)) r) (Option.map (fun n => (n : ℚ)) t) =
      createContainer envId containers postOk verified respId name r t := by
  simp only [createContainerRat, createContainer, coerceRetryCountRat_intCast,
    coerceTimeoutMsRat_intCast]

/-- C10 counterexample: `createStack(spec, 0.5, 100)` refutes the claim that
a zero-attempt creation cannot be requested.  The argument 0.5 is truthy, so
the falsy check does not replace it, and `Math.floor(0.5) = 0` is not
negative, so the negativity check does not either: the normalized retry count
is `Math.floor(0.5) = 0`.  The call passes validation, the idempotency lookup
and the environment check, reaches the attempt loop, runs zero iterations and
returns the empty failure result with ZERO creation submissions; the same
argument gives `createContainer` zero submissions as well. -/
theorem c10_zero_retry_counterexample :
    coerceRetryCountRat (some (1/2 : ℚ)) = 0 ∧
    createStackRat (some []) (some 1) (fun _ => true) (fun _ _ => false)
      ⟨("web"), ("compose"), []⟩ (some (1/2 : ℚ)) (some 100) =
      (CreateResult.empty, 0) ∧
    (createContainerRat (some 1) (some []) (fun _ => true) (fun _ => false)
      (fun _ => ("cid")) ("app") (some (1/2 : ℚ)) (some 100)).submissions = 0 := by
  have hco : coerceRetryCountRat (some (1/2 : ℚ)) = 0 := by
    rw [coerceRetryCountRat]
    rw [if_neg (by norm_num)]
    rw [if_neg (by norm_num)]
    norm_num
  refine ⟨hco, ?_, ?_⟩
  · rw [createStackRat.eq_def]
    have hmiss : getStackByName (some []) ("web") = none := by decide
    simp only [hmiss]
    rw [if_neg (by decide)]
    rw [hco]
    rfl
  · rw [createContainerRat.eq_def]
    rw [hco]
    rfl

/-- C10 amended: a `maxRetryCount` argument of exactly 0 is falsy in
JavaScript, so the falsy check replaces it with the default 3 before the
negativity check can see it, and any missing or integer-valued argument
normalizes to a retry count of at least 1, so such calls issue at least one
creation submission on reaching the attempt loop.  However, a fractional
argument strictly between 0 and 1 is truthy with a non-negative floor and is
normalized to its floor, 0: such a call reaches the attempt loop, runs zero
iterations, and issues ZERO creation submissions — a zero-attempt creation
can be requested after all. -/
theorem c10_zero_retry_default_amended (q : ℚ) (r : Option Int)
    (listing : Option (List PortainerStack)) (e : Int) (postOk : Nat → Bool)
    (verified : Nat → Int → Bool) (spec : StackSpec) (t : Option ℚ)
    (containers : Option (List PortainerContainer)) (cpost : Nat → Bool)
    (cver : Nat → Bool) (respId : Nat → String) (cname : String)
    (hn : spec.Name ≠ "") (hc : spec.ComposeFile ≠ "")
    (hmiss : getStackByName listing spec.Name = none)
    (hq0 : 0 < q) (hq1 : q < 1) :
    coerceRetryCountRat (some 0) = 3 ∧
    1 ≤ (coerceRetryCountRat (Option.map (fun n => (n : ℚ)) r)).toNat ∧
    1 ≤ (createStackRat listing (some e) postOk verified spec
        (Option.map (fun n => (n : ℚ)) r) t).2 ∧
    1 ≤ (createContainerRat (some e) containers cpost cver respId cname
        (Option.map (fun n => (n : ℚ)) r) t).submissions ∧
    coerceRetryCountRat (some q) = 0 ∧
    createStackRat listing (some e) postOk verified spec (some q) t =
      (CreateResult.empty, 0) ∧
    (createContainerRat (some e) containers cpost cver respId cname
        (some q) t).submissions = 0 := by
  have hfl : ⌊q⌋ = 0 := Int.floor_eq_zero_iff.mpr (Set.mem_Ico.mpr ⟨hq0.le, hq1⟩)
  have hq : coerceRetryCountRat (some q) = 0 := by
    rw [coerceRetryCountRat]
    rw [if_neg (ne_of_gt hq0)]
    rw [if_neg (by rw [hfl]; norm_num)]
    exact hfl
  have hpos : 1 ≤ (coerceRetryCountRat (Option.map (fun n => (n : ℚ)) r)).toNat := by
    rw [coerceRetryCountRat_intCast r]
    exact coerceRetryCount_toNat_pos r
  refine ⟨by decide, hpos, ?_, ?_, hq, ?_, ?_⟩
  · rw [createStackRat.eq_def]
    simp only [hmiss]
    rw [if_neg (by simp [hn, hc])]
    exact attemptLoop_pos _ _ _ _ _ hpos
  · rw [createContainerRat.eq_def]
    exact containerLoop_pos _ _ _ _ _ _ hpos
  · rw [createStackRat.eq_def]
    simp only [hmiss]
    rw [if_neg (by simp [hn, hc])]
    rw [hq]
    rfl
  · rw [createContainerRat.eq_def]
    rw [hq]
    rfl

theorem c10_zero_retry_default_amended_witness :
    coerceRetryCountRat (some 0) = 3 ∧
    1 ≤ (coerceRetryCountRat (Option.map (fun n => (n : ℚ)) (some 0))).toNat ∧
    1 ≤ (createStackRat (some []) (some 1) (fun _ => true) (fun _ _ => false)
        ⟨("web"), ("compose"), []⟩ (Option.map (fun n => (n : ℚ)) (some 0)) none).2 ∧
    1 ≤ (createContainerRat (some 1) (some []) (fun _ => true) (fun _ => false)
        (fun _ => ("cid")) ("app") (Option.map (fun n => (n : ℚ)) (some 0))
        none).submissions ∧
    coerceRetryCountRat (some (1/2 : ℚ)) = 0 ∧
    createStackRat (some []) (some 1) (fun _ => true) (fun _ _ => false)
        ⟨("web"), ("compose"), []⟩ (some (1/2 : ℚ)) none =
      (CreateResult.empty, 0) ∧
    (createContainerRat (some 1) (some []) (fun _ => true) (fun _ => false)
        (fun _ => ("cid")) ("app") (some (1/2 : ℚ)) none).submissions = 0 :=
  c10_zero_retry_default_amended (1/2 : ℚ) (some 0) (some []) 1 (fun _ => true)
    (fun _ _ => false) ⟨("web"), ("compose"), []⟩ none (some [])
    (fun _ => true) (fun _ => false) (fun _ => ("cid")) ("app")
    (by decide) (by decide) (by decide) (by norm_num) (by norm_num)
